import Mathlib

/-!
Shallow embedding of the ESP32-S3 UART LED controller firmware
(`firmware/esp32/src/main.cpp` style source): the render engine, command
dispatcher (`process_command`), logical-to-physical address mapper
(`logical_to_physical`) and the framed-stream transport loop (`loop`).

Machine integers are modelled as `Nat`; under the configuration invariant
(1 ≤ active_strips ≤ 8, 1 ≤ leds_per_strip ≤ 500) none of the modelled
arithmetic overflows `uint16_t`/`size_t`, so the `Nat` model is exact on
the reachable inputs. Serial output of human-readable debug text is not
modelled; protocol responses sent by `send_response` (and the `CMD_ECHO`
reply) are modelled as a list of emitted responses.
-/

set_option maxRecDepth 4000

namespace LedGrid

/-- An RGB pixel, as FastLED's `CRGB`. -/
structure RGB where
  r : Nat
  g : Nat
  b : Nat
deriving DecidableEq, Repr

/-- `CRGB::Black`. -/
def black : RGB := ⟨0, 0, 0⟩

-- Compile-time constants from the firmware source.
def MAX_STRIPS : Nat := 8
def MAX_LEDS_PER_STRIP : Nat := 500
def MAX_TOTAL_LEDS : Nat := MAX_STRIPS * MAX_LEDS_PER_STRIP
def DEFAULT_STRIPS : Nat := 8
def DEFAULT_LEDS_PER_STRIP : Nat := 140

def CMD_SET_PIXEL : Nat := 0x01
def CMD_SET_BRIGHTNESS : Nat := 0x02
def CMD_SHOW : Nat := 0x03
def CMD_CLEAR : Nat := 0x04
def CMD_SET_RANGE : Nat := 0x05
def CMD_SET_ALL : Nat := 0x06
def CMD_CONFIG : Nat := 0x07
def CMD_ECHO : Nat := 0xFE
def CMD_PING : Nat := 0xFF

def PACKET_START : Nat := 0xAA
def PACKET_END : Nat := 0x55
def MAX_PACKET_SIZE : Nat := 1 + MAX_TOTAL_LEDS * 3

def RESP_OK : Nat := 0x00
def RESP_ERROR : Nat := 0x01

/-- A response frame emitted back over the serial channel:
either a `send_response(code, message)` frame, or the raw echo frame of
`CMD_ECHO`. -/
inductive Resp where
  | msg (code : Nat) (text : String)
  | echo (data : List Nat)
deriving DecidableEq

/-- The engine state: the render buffer `leds` (a total function standing
for the `CRGB leds[MAX_TOTAL_LEDS]` array), the layout configuration, the
statistics counters and the emitted responses. -/
structure EngineState where
  leds : Nat → RGB
  active_strips : Nat
  leds_per_strip : Nat
  total_leds : Nat
  global_brightness : Nat
  packets_received : Nat
  frames_rendered : Nat
  packet_errors : Nat
  config_commands_received : Nat
  set_all_commands_received : Nat
  total_bytes_received : Nat
  debug_logging : Bool
  responses : List Resp

/-- State after `setup()` finishes (rainbow cleared, all pixels black). -/
def initialState : EngineState where
  leds := fun _ => black
  active_strips := DEFAULT_STRIPS
  leds_per_strip := DEFAULT_LEDS_PER_STRIP
  total_leds := DEFAULT_STRIPS * DEFAULT_LEDS_PER_STRIP
  global_brightness := 50
  packets_received := 0
  frames_rendered := 0
  packet_errors := 0
  config_commands_received := 0
  set_all_commands_received := 0
  total_bytes_received := 0
  debug_logging := false
  responses := []

/-- `leds[p] = c;` -/
def writePixel (f : Nat → RGB) (p : Nat) (c : RGB) : Nat → RGB :=
  fun q => if q = p then c else f q

/-- `logical_to_physical` from the firmware (parameterised by the two
globals it reads): divide into (strip, offset), clamping a strip index at
or beyond `active_strips` to the last slot of the last active strip. -/
def logical_to_physical (active_strips leds_per_strip : Nat) (logical : Nat) : Nat :=
  let strip := logical / leds_per_strip
  let offset := logical % leds_per_strip
  if active_strips ≤ strip then
    (active_strips - 1) * MAX_LEDS_PER_STRIP + (leds_per_strip - 1)
  else
    strip * MAX_LEDS_PER_STRIP + offset

/-- `data[i]` on the received command buffer (guards in the handlers keep
every access in bounds, so the default is never observable). -/
def byteAt (data : List Nat) (i : Nat) : Nat := data.getD i 0

/-- `CRGB(data[base], data[base+1], data[base+2])`. -/
def tripleAt (data : List Nat) (base : Nat) : RGB :=
  ⟨byteAt data base, byteAt data (base + 1), byteAt data (base + 2)⟩

/-- Black out the physical slots `[a, a+n)` in ascending order. -/
def blackRange : Nat → Nat → (Nat → RGB) → (Nat → RGB)
  | _, 0, f => f
  | a, Nat.succ n, f => blackRange (a + 1) n (writePixel f a black)

/-- The `CMD_CLEAR` double loop: for each strip below `k`, black out all
`MAX_LEDS_PER_STRIP` slots of that strip (ascending strip order). -/
def clearStrips : Nat → (Nat → RGB) → (Nat → RGB)
  | 0, f => f
  | Nat.succ k, f => blackRange (k * MAX_LEDS_PER_STRIP) MAX_LEDS_PER_STRIP (clearStrips k f)

/-- The `CMD_SET_ALL` "clear unused LEDs" double loop: for each strip
below `k`, black out the slots with offset in `[len, MAX_LEDS_PER_STRIP)`. -/
def clearTails (len : Nat) : Nat → (Nat → RGB) → (Nat → RGB)
  | 0, f => f
  | Nat.succ k, f => blackRange (k * MAX_LEDS_PER_STRIP + len) (MAX_LEDS_PER_STRIP - len) (clearTails len k f)

/-- The `CMD_SET_ALL` write loop: for `logical` in `[0, n)` ascending,
`leds[logical_to_physical(logical)] = trip logical`. -/
def applySetAll (l2p : Nat → Nat) (trip : Nat → RGB) : Nat → (Nat → RGB) → (Nat → RGB)
  | 0, f => f
  | Nat.succ n, f => writePixel (applySetAll l2p trip n f) (l2p n) (trip n)

/-- The `CMD_SET_RANGE` write loop: `k` iterations remaining, `i` the loop
counter; `logical = start + i`, breaking when `logical ≥ total`. -/
def setRangeGo (total start : Nat) (l2p : Nat → Nat) (trip : Nat → RGB) :
    Nat → Nat → (Nat → RGB) → (Nat → RGB)
  | 0, _, f => f
  | Nat.succ k, i, f =>
    if total ≤ start + i then f
    else setRangeGo total start l2p trip k (i + 1) (writePixel f (l2p (start + i)) (trip i))

/-- `CMD_ECHO`: echo the whole received buffer back. -/
def doEcho (data : List Nat) (s : EngineState) : EngineState :=
  { s with responses := s.responses ++ [Resp.echo data] }

/-- `CMD_PING`: toggle the status LED (not modelled) and acknowledge. -/
def doPing (s : EngineState) : EngineState :=
  { s with responses := s.responses ++ [Resp.msg RESP_OK "PONG"] }

/-- `CMD_SET_PIXEL`: needs 6 bytes; writes one physical slot only when the
big-endian logical index is strictly below `total_leds`. -/
def doSetPixel (data : List Nat) (s : EngineState) : EngineState :=
  if data.length < 6 then s
  else
    let pixel := (byteAt data 1) <<< 8 ||| byteAt data 2
    if pixel < s.total_leds then
      { s with leds := writePixel s.leds
                        (logical_to_physical s.active_strips s.leds_per_strip pixel)
                        ⟨byteAt data 3, byteAt data 4, byteAt data 5⟩ }
    else s

/-- `CMD_SET_BRIGHTNESS`. -/
def doSetBrightness (data : List Nat) (s : EngineState) : EngineState :=
  if data.length < 2 then s
  else { s with global_brightness := byteAt data 1 }

/-- `CMD_CLEAR`: black the full extent of every active strip and show. -/
def doClear (s : EngineState) : EngineState :=
  { s with leds := clearStrips s.active_strips s.leds }

/-- `CMD_SET_RANGE`: best-effort clamped range write. -/
def doSetRange (data : List Nat) (s : EngineState) : EngineState :=
  if data.length < 4 then s
  else
    let start := (byteAt data 1) <<< 8 ||| byteAt data 2
    if s.total_leds ≤ start then s
    else
      let count := byteAt data 3
      let expected := 4 + count * 3
      if data.length < expected then s
      else
        let count := if s.total_leds < start + count then s.total_leds - start else count
        { s with leds := setRangeGo s.total_leds start
                          (logical_to_physical s.active_strips s.leds_per_strip)
                          (fun i => tripleAt data (4 + i * 3)) count 0 s.leds }

/-- `CMD_SET_ALL`: strict size contract `length ≥ 1 + total_leds*3` (note
the source tests `length < expected`, not inequality of lengths); on
success overwrite every logical pixel, black the unused tail of every
active strip, render and count the frame. -/
def doSetAll (data : List Nat) (s : EngineState) : EngineState :=
  let s := { s with set_all_commands_received := s.set_all_commands_received + 1 }
  let expected := 1 + s.total_leds * 3
  if data.length < expected then
    { s with packet_errors := s.packet_errors + 1,
             responses := s.responses ++ [Resp.msg RESP_ERROR "SIZE_MISMATCH"] }
  else
    let f1 := applySetAll (logical_to_physical s.active_strips s.leds_per_strip)
                (fun logical => tripleAt data (1 + logical * 3)) s.total_leds s.leds
    let f2 := clearTails s.leds_per_strip s.active_strips f1
    let s := { s with leds := f2, frames_rendered := s.frames_rendered + 1 }
    if s.frames_rendered ≤ 3 then
      { s with responses := s.responses ++ [Resp.msg RESP_OK "FRAME_OK"] }
    else s

/-- `CMD_CONFIG`: validate, update the layout, clear the whole buffer only
on an actual change, acknowledge, and optionally set the debug flag. -/
def doConfig (data : List Nat) (s : EngineState) : EngineState :=
  let s := { s with config_commands_received := s.config_commands_received + 1 }
  if data.length < 4 then
    { s with responses := s.responses ++ [Resp.msg RESP_ERROR "CONFIG_TOO_SHORT"] }
  else
    let new_strips := byteAt data 1
    let new_len := (byteAt data 2) <<< 8 ||| byteAt data 3
    if new_strips = 0 ∨ MAX_STRIPS < new_strips then
      { s with responses := s.responses ++ [Resp.msg RESP_ERROR "INVALID_STRIPS"] }
    else if new_len = 0 ∨ MAX_LEDS_PER_STRIP < new_len then
      { s with responses := s.responses ++ [Resp.msg RESP_ERROR "INVALID_LENGTH"] }
    else
      let config_changed := s.active_strips ≠ new_strips ∨ s.leds_per_strip ≠ new_len
      let s := { s with active_strips := new_strips, leds_per_strip := new_len,
                        total_leds := new_strips * new_len }
      let s :=
        if config_changed then
          { s with leds := blackRange 0 MAX_TOTAL_LEDS s.leds,
                   responses := s.responses ++ [Resp.msg RESP_OK "CONFIG_CHANGED"] }
        else
          { s with responses := s.responses ++ [Resp.msg RESP_OK "CONFIG_OK"] }
      if 5 ≤ data.length then { s with debug_logging := byteAt data 4 ≠ 0 } else s

/-- The two unconditional counter updates at the top of `process_command`:
`total_bytes_received += length; packets_received++;`. -/
def bumpRx (data : List Nat) (s : EngineState) : EngineState :=
  { s with total_bytes_received := s.total_bytes_received + data.length,
           packets_received := s.packets_received + 1 }

/-- `process_command(data, length)`: count the packet and dispatch on the
opcode byte; an unknown opcode counts a packet error. -/
def process_command (data : List Nat) (s : EngineState) : EngineState :=
  if data.length = 0 then s
  else
    let s := bumpRx data s
    let cmd := byteAt data 0
    if cmd = CMD_ECHO then doEcho data s
    else if cmd = CMD_PING then doPing s
    else if cmd = CMD_SET_PIXEL then doSetPixel data s
    else if cmd = CMD_SET_BRIGHTNESS then doSetBrightness data s
    else if cmd = CMD_SHOW then s
    else if cmd = CMD_CLEAR then doClear s
    else if cmd = CMD_SET_RANGE then doSetRange data s
    else if cmd = CMD_SET_ALL then doSetAll data s
    else if cmd = CMD_CONFIG then doConfig data s
    else { s with packet_errors := s.packet_errors + 1 }

/-- `packet_errors++;` -/
def bumpErr (s : EngineState) : EngineState :=
  { s with packet_errors := s.packet_errors + 1 }

/-- One iteration of `loop()`'s framed-stream reader, on the pending byte
queue: do nothing below 4 available bytes; discard one non-START byte and
count an error; on START read the little-endian length, reject oversized
lengths (flushing the queue), count a timeout error if the payload and end
marker are not available, reject a bad end marker, and otherwise dispatch
the payload to `process_command`. Returns the remaining queue and state. -/
def loopStep (buf : List Nat) (s : EngineState) : List Nat × EngineState :=
  if buf.length < 4 then (buf, s)
  else
    match buf with
    | start :: lo :: hi :: rest =>
      if start = PACKET_START then
        let payload_len := lo ||| hi <<< 8
        if MAX_PACKET_SIZE < payload_len then ([], bumpErr s)
        else if rest.length < payload_len + 1 then (rest, bumpErr s)
        else if byteAt rest payload_len ≠ PACKET_END then
          (rest.drop (payload_len + 1), bumpErr s)
        else
          (rest.drop (payload_len + 1), process_command (rest.take payload_len) s)
      else (lo :: hi :: rest, bumpErr s)
    | _ => (buf, s)

theorem loopStep_length_lt (buf : List Nat) (s : EngineState) (h : 4 ≤ buf.length) :
    (loopStep buf s).1.length < buf.length := by
  match buf with
  | start :: lo :: hi :: rest =>
    simp only [loopStep]
    rw [if_neg (by omega)]
    split
    · split
      · simp
      · split
        · simp only [List.length_cons] at *
          omega
        · split <;>
          · simp only [List.length_drop, List.length_cons] at *
            omega
    · simp only [List.length_cons] at *
      omega
  | [] => simp at h
  | [_] => simp at h
  | [_, _] => simp at h

/-- Iterate `loopStep` on a finite incoming byte queue until fewer than 4
bytes remain (at which point `loop()` would wait for more input). -/
def runStream (buf : List Nat) (s : EngineState) : EngineState :=
  if _h : buf.length < 4 then s
  else
    runStream (loopStep buf s).1 (loopStep buf s).2
termination_by buf.length
decreasing_by exact loopStep_length_lt buf s (by omega)

/-- Engine states reachable from boot by dispatching any sequence of
validated command buffers (byte values below 256, sizes within the framing
bound). -/
inductive Reachable : EngineState → Prop where
  | init : Reachable initialState
  | step {s : EngineState} (data : List Nat) :
      Reachable s → (∀ b ∈ data, b < 256) → data.length ≤ MAX_PACKET_SIZE →
      Reachable (process_command data s)

/-- The Configuration invariant of the data model (spec §3). -/
def ConfigInv (s : EngineState) : Prop :=
  1 ≤ s.active_strips ∧ s.active_strips ≤ MAX_STRIPS ∧
  1 ≤ s.leds_per_strip ∧ s.leds_per_strip ≤ MAX_LEDS_PER_STRIP ∧
  s.total_leds = s.active_strips * s.leds_per_strip

/-- All physical slots on strips at or beyond strip index `a` are black. -/
def BO (a : Nat) (f : Nat → RGB) : Prop :=
  ∀ p, p < MAX_TOTAL_LEDS → a ≤ p / MAX_LEDS_PER_STRIP → f p = black

theorem writePixel_apply (f : Nat → RGB) (p c q) :
    writePixel f p c q = if q = p then c else f q := rfl

theorem blackRange_apply (n : Nat) :
    ∀ (a : Nat) (f : Nat → RGB) (p : Nat),
      blackRange a n f p = if a ≤ p ∧ p < a + n then black else f p := by
  induction n with
  | zero =>
    intro a f p
    rw [if_neg (by omega)]
    rfl
  | succ n ih =>
    intro a f p
    show blackRange (a + 1) n (writePixel f a black) p = _
    rw [ih, writePixel_apply]
    split_ifs <;> first | rfl | omega

theorem clearStrips_apply (k : Nat) (f : Nat → RGB) (p : Nat) :
    clearStrips k f p = if p < k * MAX_LEDS_PER_STRIP then black else f p := by
  induction k with
  | zero =>
    rw [if_neg (by omega)]
    rfl
  | succ k ih =>
    show blackRange (k * MAX_LEDS_PER_STRIP) MAX_LEDS_PER_STRIP (clearStrips k f) p = _
    rw [blackRange_apply, ih]
    simp only [MAX_LEDS_PER_STRIP] at *
    split_ifs <;> first | rfl | omega

theorem clearTails_apply (len : Nat) (hlen : len ≤ MAX_LEDS_PER_STRIP) (k : Nat)
    (f : Nat → RGB) (p : Nat) :
    clearTails len k f p =
      if p / MAX_LEDS_PER_STRIP < k ∧ len ≤ p % MAX_LEDS_PER_STRIP then black else f p := by
  induction k with
  | zero =>
    rw [if_neg fun hc => Nat.not_lt_zero _ hc.1]
    rfl
  | succ k ih =>
    show blackRange (k * MAX_LEDS_PER_STRIP + len) (MAX_LEDS_PER_STRIP - len) (clearTails len k f) p = _
    rw [blackRange_apply, ih]
    simp only [MAX_LEDS_PER_STRIP] at *
    split_ifs <;> first | rfl | omega

theorem applySetAll_apply_ne (l2p : Nat → Nat) (trip : Nat → RGB) (n : Nat)
    (f : Nat → RGB) (p : Nat) (h : ∀ j, j < n → l2p j ≠ p) :
    applySetAll l2p trip n f p = f p := by
  induction n with
  | zero => rfl
  | succ n ih =>
    show writePixel (applySetAll l2p trip n f) (l2p n) (trip n) p = f p
    rw [writePixel_apply, if_neg]
    · exact ih fun j hj => h j (by omega)
    · exact fun hp => h n (by omega) hp.symm

theorem applySetAll_apply (l2p : Nat → Nat) (trip : Nat → RGB) (n : Nat)
    (f : Nat → RGB) (i : Nat) (hi : i < n)
    (hinj : ∀ j, j < n → j ≠ i → l2p j ≠ l2p i) :
    applySetAll l2p trip n f (l2p i) = trip i := by
  induction n with
  | zero => omega
  | succ n ih =>
    show writePixel (applySetAll l2p trip n f) (l2p n) (trip n) (l2p i) = trip i
    rw [writePixel_apply]
    by_cases hni : i = n
    · subst hni
      rw [if_pos rfl]
    · rw [if_neg fun hp => hinj n (by omega) (fun hn => hni hn.symm) hp.symm]
      exact ih (by omega) fun j hj hji => hinj j (by omega) hji

theorem l2p_in_range (a len : Nat) (hl1 : 1 ≤ len) (i : Nat) (hi : i < a * len) :
    logical_to_physical a len i =
        (i / len) * MAX_LEDS_PER_STRIP + i % len ∧
      i / len < a ∧ i % len < len := by
  have hdiv : i / len < a := (Nat.div_lt_iff_lt_mul (by omega)).mpr (by omega)
  have hmod : i % len < len := Nat.mod_lt _ (by omega)
  refine ⟨?_, hdiv, hmod⟩
  unfold logical_to_physical
  rw [if_neg (by omega)]

theorem l2p_clamp (a len : Nat) (hl1 : 1 ≤ len) (i : Nat) (hi : a * len ≤ i) :
    logical_to_physical a len i =
      (a - 1) * MAX_LEDS_PER_STRIP + (len - 1) := by
  have hdiv : a ≤ i / len := (Nat.le_div_iff_mul_le (by omega)).mpr (by omega)
  unfold logical_to_physical
  rw [if_pos (by omega)]

theorem l2p_div_lt (a len : Nat) (ha1 : 1 ≤ a) (hl1 : 1 ≤ len)
    (hl2 : len ≤ MAX_LEDS_PER_STRIP) (i : Nat) :
    logical_to_physical a len i / MAX_LEDS_PER_STRIP < a := by
  have hmod : i % len < len := Nat.mod_lt _ (by omega)
  unfold logical_to_physical
  simp only [MAX_LEDS_PER_STRIP] at *
  split_ifs with hclamp <;> omega

theorem l2p_lt_max (a len : Nat) (ha1 : 1 ≤ a) (ha2 : a ≤ MAX_STRIPS)
    (hl1 : 1 ≤ len) (hl2 : len ≤ MAX_LEDS_PER_STRIP) (i : Nat) :
    logical_to_physical a len i < MAX_TOTAL_LEDS := by
  have hd := l2p_div_lt a len ha1 hl1 hl2 i
  simp only [MAX_LEDS_PER_STRIP, MAX_STRIPS, MAX_TOTAL_LEDS] at *
  omega

theorem l2p_inj (a len : Nat) (hl1 : 1 ≤ len) (hl2 : len ≤ MAX_LEDS_PER_STRIP)
    (i j : Nat) (hi : i < a * len) (hj : j < a * len) (hne : i ≠ j) :
    logical_to_physical a len i ≠ logical_to_physical a len j := by
  obtain ⟨ei, hdi, hmi⟩ := l2p_in_range a len hl1 i hi
  obtain ⟨ej, hdj, hmj⟩ := l2p_in_range a len hl1 j hj
  intro hcontra
  rw [ei, ej] at hcontra
  have hdm : i / len = j / len ∧ i % len = j % len := by
    simp only [MAX_LEDS_PER_STRIP] at *
    omega
  apply hne
  have hi2 := Nat.div_add_mod i len
  have hj2 := Nat.div_add_mod j len
  rw [← hi2, ← hj2, hdm.1, hdm.2]

theorem BO_writePixel (a : Nat) (f : Nat → RGB) (t : Nat) (c : RGB)
    (hf : BO a f) (ht : t / MAX_LEDS_PER_STRIP < a) :
    BO a (writePixel f t c) := by
  intro p hp ha
  rw [writePixel_apply, if_neg]
  · exact hf p hp ha
  · rintro rfl
    omega

theorem BO_writeBlack (a : Nat) (f : Nat → RGB) (t : Nat) (hf : BO a f) :
    BO a (writePixel f t black) := by
  intro p hp ha
  rw [writePixel_apply]
  split_ifs with h
  · rfl
  · exact hf p hp ha

theorem BO_blackRange (a : Nat) (x n : Nat) (f : Nat → RGB) (hf : BO a f) :
    BO a (blackRange x n f) := by
  induction n generalizing x f with
  | zero => exact hf
  | succ n ih => exact ih (x + 1) _ (BO_writeBlack a f x hf)

theorem BO_clearStrips (a : Nat) (k : Nat) (f : Nat → RGB) (hf : BO a f) :
    BO a (clearStrips k f) := by
  induction k with
  | zero => exact hf
  | succ k ih => exact BO_blackRange a _ _ _ ih

theorem BO_clearTails (a : Nat) (len k : Nat) (f : Nat → RGB) (hf : BO a f) :
    BO a (clearTails len k f) := by
  induction k with
  | zero => exact hf
  | succ k ih => exact BO_blackRange a _ _ _ ih

theorem BO_applySetAll (a : Nat) (l2p : Nat → Nat) (trip : Nat → RGB) (n : Nat)
    (f : Nat → RGB) (hl : ∀ j, l2p j / MAX_LEDS_PER_STRIP < a) (hf : BO a f) :
    BO a (applySetAll l2p trip n f) := by
  induction n with
  | zero => exact hf
  | succ n ih => exact BO_writePixel a _ _ _ ih (hl n)

theorem BO_setRangeGo (a total start : Nat) (l2p : Nat → Nat) (trip : Nat → RGB)
    (k i : Nat) (f : Nat → RGB) (hl : ∀ j, l2p j / MAX_LEDS_PER_STRIP < a)
    (hf : BO a f) : BO a (setRangeGo total start l2p trip k i f) := by
  induction k generalizing i f with
  | zero => exact hf
  | succ k ih =>
    show BO a (if total ≤ start + i then f else _)
    split_ifs with h
    · exact hf
    · exact ih (i + 1) _ (BO_writePixel a _ _ _ hf (hl (start + i)))

theorem BO_allBlack (a : Nat) (f : Nat → RGB) :
    BO a (blackRange 0 MAX_TOTAL_LEDS f) := by
  intro p hp ha
  rw [blackRange_apply, if_pos (by omega)]

/-- The full state invariant preserved by command dispatch: a legal
configuration, and every physical slot on a strip at or beyond
`active_strips` black. -/
def Inv (s : EngineState) : Prop := ConfigInv s ∧ BO s.active_strips s.leds

theorem inv_doSetPixel (data : List Nat) (s : EngineState) (h : Inv s) :
    Inv (doSetPixel data s) := by
  obtain ⟨hc, hb⟩ := h
  unfold doSetPixel
  dsimp only
  split_ifs with h1 h2
  · exact ⟨hc, hb⟩
  · exact ⟨hc, BO_writePixel _ _ _ _ hb (l2p_div_lt s.active_strips s.leds_per_strip hc.1 hc.2.2.1 hc.2.2.2.1 _)⟩
  · exact ⟨hc, hb⟩

theorem inv_doClear (s : EngineState) (h : Inv s) : Inv (doClear s) :=
  ⟨h.1, BO_clearStrips _ _ _ h.2⟩

theorem inv_doSetRange (data : List Nat) (s : EngineState) (h : Inv s) :
    Inv (doSetRange data s) := by
  obtain ⟨hc, hb⟩ := h
  unfold doSetRange
  dsimp only
  split_ifs with h1 h2 h3 h4
  · exact ⟨hc, hb⟩
  · exact ⟨hc, hb⟩
  · exact ⟨hc, hb⟩
  · exact ⟨hc, BO_setRangeGo _ _ _ _ _ _ _ _ (l2p_div_lt s.active_strips s.leds_per_strip hc.1 hc.2.2.1 hc.2.2.2.1) hb⟩
  · exact ⟨hc, BO_setRangeGo _ _ _ _ _ _ _ _ (l2p_div_lt s.active_strips s.leds_per_strip hc.1 hc.2.2.1 hc.2.2.2.1) hb⟩

theorem inv_doSetAll (data : List Nat) (s : EngineState) (h : Inv s) :
    Inv (doSetAll data s) := by
  obtain ⟨hc, hb⟩ := h
  unfold doSetAll
  dsimp only
  split_ifs with h1 h2
  · exact ⟨hc, hb⟩
  · exact ⟨hc, BO_clearTails _ _ _ _ (BO_applySetAll _ _ _ _ _ (l2p_div_lt s.active_strips s.leds_per_strip hc.1 hc.2.2.1 hc.2.2.2.1) hb)⟩
  · exact ⟨hc, BO_clearTails _ _ _ _ (BO_applySetAll _ _ _ _ _ (l2p_div_lt s.active_strips s.leds_per_strip hc.1 hc.2.2.1 hc.2.2.2.1) hb)⟩

/-- A `CMD_CONFIG` buffer shorter than 4 bytes is rejected with
`CONFIG_TOO_SHORT` and mutates only the command counter. -/
theorem doConfig_too_short (data : List Nat) (s : EngineState)
    (h4 : data.length < 4) :
    doConfig data s =
      { s with config_commands_received := s.config_commands_received + 1,
               responses := s.responses ++ [Resp.msg RESP_ERROR "CONFIG_TOO_SHORT"] } := by
  unfold doConfig
  dsimp only
  rw [if_pos h4]

/-- A `CMD_CONFIG` with an out-of-range strip count is rejected with
`INVALID_STRIPS` and mutates only the command counter. -/
theorem doConfig_invalid_strips (data : List Nat) (s : EngineState)
    (h4 : ¬data.length < 4)
    (hs : byteAt data 1 = 0 ∨ MAX_STRIPS < byteAt data 1) :
    doConfig data s =
      { s with config_commands_received := s.config_commands_received + 1,
               responses := s.responses ++ [Resp.msg RESP_ERROR "INVALID_STRIPS"] } := by
  unfold doConfig
  dsimp only
  rw [if_neg h4, if_pos hs]

/-- A `CMD_CONFIG` with an out-of-range leds-per-strip is rejected with
`INVALID_LENGTH` and mutates only the command counter. -/
theorem doConfig_invalid_len (data : List Nat) (s : EngineState)
    (h4 : ¬data.length < 4)
    (hs : ¬(byteAt data 1 = 0 ∨ MAX_STRIPS < byteAt data 1))
    (hl : byteAt data 2 <<< 8 ||| byteAt data 3 = 0 ∨
          MAX_LEDS_PER_STRIP < byteAt data 2 <<< 8 ||| byteAt data 3) :
    doConfig data s =
      { s with config_commands_received := s.config_commands_received + 1,
               responses := s.responses ++ [Resp.msg RESP_ERROR "INVALID_LENGTH"] } := by
  unfold doConfig
  dsimp only
  rw [if_neg h4, if_neg hs, if_pos hl]

/-- A valid `CMD_CONFIG` whose requested layout differs from the current
one: updates the configuration, clears the whole buffer, acknowledges
`CONFIG_CHANGED` (and, when a fifth byte is present, sets the debug flag). -/
theorem doConfig_changed_eq (data : List Nat) (s : EngineState)
    (h4 : ¬data.length < 4)
    (hs : ¬(byteAt data 1 = 0 ∨ MAX_STRIPS < byteAt data 1))
    (hl : ¬(byteAt data 2 <<< 8 ||| byteAt data 3 = 0 ∨
            MAX_LEDS_PER_STRIP < byteAt data 2 <<< 8 ||| byteAt data 3))
    (hch : s.active_strips ≠ byteAt data 1 ∨
           s.leds_per_strip ≠ byteAt data 2 <<< 8 ||| byteAt data 3) :
    doConfig data s =
      (let base : EngineState :=
        { s with config_commands_received := s.config_commands_received + 1,
                 active_strips := byteAt data 1,
                 leds_per_strip := byteAt data 2 <<< 8 ||| byteAt data 3,
                 total_leds := byteAt data 1 * (byteAt data 2 <<< 8 ||| byteAt data 3),
                 leds := blackRange 0 MAX_TOTAL_LEDS s.leds,
                 responses := s.responses ++ [Resp.msg RESP_OK "CONFIG_CHANGED"] }
      if 5 ≤ data.length then { base with debug_logging := byteAt data 4 ≠ 0 } else base) := by
  unfold doConfig
  dsimp only
  rw [if_neg h4, if_neg hs, if_neg hl, if_pos hch]

/-- A valid `CMD_CONFIG` whose requested layout equals the current one:
no pixel is touched, acknowledges `CONFIG_OK`. -/
theorem doConfig_unchanged_eq (data : List Nat) (s : EngineState)
    (h4 : ¬data.length < 4)
    (hs : ¬(byteAt data 1 = 0 ∨ MAX_STRIPS < byteAt data 1))
    (hl : ¬(byteAt data 2 <<< 8 ||| byteAt data 3 = 0 ∨
            MAX_LEDS_PER_STRIP < byteAt data 2 <<< 8 ||| byteAt data 3))
    (hch : ¬(s.active_strips ≠ byteAt data 1 ∨
             s.leds_per_strip ≠ byteAt data 2 <<< 8 ||| byteAt data 3)) :
    doConfig data s =
      (let base : EngineState :=
        { s with config_commands_received := s.config_commands_received + 1,
                 active_strips := byteAt data 1,
                 leds_per_strip := byteAt data 2 <<< 8 ||| byteAt data 3,
                 total_leds := byteAt data 1 * (byteAt data 2 <<< 8 ||| byteAt data 3),
                 responses := s.responses ++ [Resp.msg RESP_OK "CONFIG_OK"] }
      if 5 ≤ data.length then { base with debug_logging := byteAt data 4 ≠ 0 } else base) := by
  unfold doConfig
  dsimp only
  rw [if_neg h4, if_neg hs, if_neg hl, if_neg hch]

theorem doConfig_changed (data : List Nat) (s : EngineState)
    (h4 : ¬data.length < 4)
    (hs : ¬(byteAt data 1 = 0 ∨ MAX_STRIPS < byteAt data 1))
    (hl : ¬(byteAt data 2 <<< 8 ||| byteAt data 3 = 0 ∨
            MAX_LEDS_PER_STRIP < byteAt data 2 <<< 8 ||| byteAt data 3))
    (hch : s.active_strips ≠ byteAt data 1 ∨
           s.leds_per_strip ≠ byteAt data 2 <<< 8 ||| byteAt data 3) :
    (doConfig data s).leds = blackRange 0 MAX_TOTAL_LEDS s.leds ∧
    (doConfig data s).active_strips = byteAt data 1 ∧
    (doConfig data s).leds_per_strip = byteAt data 2 <<< 8 ||| byteAt data 3 ∧
    (doConfig data s).total_leds = byteAt data 1 * (byteAt data 2 <<< 8 ||| byteAt data 3) ∧
    (doConfig data s).responses = s.responses ++ [Resp.msg RESP_OK "CONFIG_CHANGED"] := by
  rw [doConfig_changed_eq data s h4 hs hl hch]
  dsimp only
  by_cases hd : 5 ≤ data.length
  · rw [if_pos hd]
    refine ⟨?_, ?_, ?_, ?_, ?_⟩ <;> dsimp only
  · rw [if_neg hd]
    refine ⟨?_, ?_, ?_, ?_, ?_⟩ <;> dsimp only

theorem doConfig_unchanged (data : List Nat) (s : EngineState)
    (h4 : ¬data.length < 4)
    (hs : ¬(byteAt data 1 = 0 ∨ MAX_STRIPS < byteAt data 1))
    (hl : ¬(byteAt data 2 <<< 8 ||| byteAt data 3 = 0 ∨
            MAX_LEDS_PER_STRIP < byteAt data 2 <<< 8 ||| byteAt data 3))
    (hch : ¬(s.active_strips ≠ byteAt data 1 ∨
             s.leds_per_strip ≠ byteAt data 2 <<< 8 ||| byteAt data 3)) :
    (doConfig data s).leds = s.leds ∧
    (doConfig data s).active_strips = byteAt data 1 ∧
    (doConfig data s).leds_per_strip = byteAt data 2 <<< 8 ||| byteAt data 3 ∧
    (doConfig data s).total_leds = byteAt data 1 * (byteAt data 2 <<< 8 ||| byteAt data 3) ∧
    (doConfig data s).responses = s.responses ++ [Resp.msg RESP_OK "CONFIG_OK"] := by
  rw [doConfig_unchanged_eq data s h4 hs hl hch]
  dsimp only
  by_cases hd : 5 ≤ data.length
  · rw [if_pos hd]
    exact ⟨rfl, rfl, rfl, rfl, rfl⟩
  · rw [if_neg hd]
    exact ⟨rfl, rfl, rfl, rfl, rfl⟩

theorem inv_doConfig (data : List Nat) (s : EngineState) (h : Inv s) :
    Inv (doConfig data s) := by
  obtain ⟨hc, hb⟩ := h
  by_cases h4 : data.length < 4
  · rw [doConfig_too_short data s h4]
    exact ⟨hc, hb⟩
  by_cases hs : byteAt data 1 = 0 ∨ MAX_STRIPS < byteAt data 1
  · rw [doConfig_invalid_strips data s h4 hs]
    exact ⟨hc, hb⟩
  by_cases hl : byteAt data 2 <<< 8 ||| byteAt data 3 = 0 ∨
      MAX_LEDS_PER_STRIP < byteAt data 2 <<< 8 ||| byteAt data 3
  · rw [doConfig_invalid_len data s h4 hs hl]
    exact ⟨hc, hb⟩
  push_neg at hs hl
  by_cases hch : s.active_strips ≠ byteAt data 1 ∨
      s.leds_per_strip ≠ byteAt data 2 <<< 8 ||| byteAt data 3
  · obtain ⟨e1, e2, e3, e4, e5⟩ := doConfig_changed data s h4 (by push_neg; exact hs)
      (by push_neg; exact hl) hch
    refine ⟨⟨?_, ?_, ?_, ?_, ?_⟩, ?_⟩
    · omega
    · omega
    · omega
    · omega
    · rw [e4, e2, e3]
    · rw [e1, e2]
      exact BO_allBlack _ _
  · obtain ⟨e1, e2, e3, e4, e5⟩ := doConfig_unchanged data s h4 (by push_neg; exact hs)
      (by push_neg; exact hl) hch
    push_neg at hch
    refine ⟨⟨?_, ?_, ?_, ?_, ?_⟩, ?_⟩
    · omega
    · omega
    · omega
    · omega
    · rw [e4, e2, e3]
    · rw [e1, e2, ← hch.1]
      exact hb

theorem inv_bumpRx (data : List Nat) (s : EngineState) (h : Inv s) :
    Inv (bumpRx data s) := h

theorem inv_process (data : List Nat) (s : EngineState) (h : Inv s) :
    Inv (process_command data s) := by
  have hB := inv_bumpRx data s h
  unfold process_command
  dsimp only
  by_cases h0 : data.length = 0
  · rw [if_pos h0]; exact h
  rw [if_neg h0]
  by_cases h1 : byteAt data 0 = CMD_ECHO
  · rw [if_pos h1]; exact hB
  rw [if_neg h1]
  by_cases h2 : byteAt data 0 = CMD_PING
  · rw [if_pos h2]; exact hB
  rw [if_neg h2]
  by_cases h3 : byteAt data 0 = CMD_SET_PIXEL
  · rw [if_pos h3]; exact inv_doSetPixel data _ hB
  rw [if_neg h3]
  by_cases h4 : byteAt data 0 = CMD_SET_BRIGHTNESS
  · rw [if_pos h4]
    unfold doSetBrightness
    split_ifs <;> exact hB
  rw [if_neg h4]
  by_cases h5 : byteAt data 0 = CMD_SHOW
  · rw [if_pos h5]; exact hB
  rw [if_neg h5]
  by_cases h6 : byteAt data 0 = CMD_CLEAR
  · rw [if_pos h6]; exact inv_doClear _ hB
  rw [if_neg h6]
  by_cases h7 : byteAt data 0 = CMD_SET_RANGE
  · rw [if_pos h7]; exact inv_doSetRange data _ hB
  rw [if_neg h7]
  by_cases h8 : byteAt data 0 = CMD_SET_ALL
  · rw [if_pos h8]; exact inv_doSetAll data _ hB
  rw [if_neg h8]
  by_cases h9 : byteAt data 0 = CMD_CONFIG
  · rw [if_pos h9]; exact inv_doConfig data _ hB
  rw [if_neg h9]
  exact hB

theorem inv_initial : Inv initialState := by
  constructor
  · refine ⟨?_, ?_, ?_, ?_, ?_⟩ <;> decide
  · intro p hp ha
    rfl

theorem reachable_inv (s : EngineState) (h : Reachable s) : Inv s := by
  induction h with
  | init => exact inv_initial
  | step data _ _ _ ih => exact inv_process data _ ih

/-- Dispatch of a `CMD_SET_ALL` buffer. -/
theorem process_setAll (rest : List Nat) (s : EngineState) :
    process_command (CMD_SET_ALL :: rest) s =
      doSetAll (CMD_SET_ALL :: rest) (bumpRx (CMD_SET_ALL :: rest) s) := rfl

/-- Dispatch of a `CMD_CONFIG` buffer. -/
theorem process_config (rest : List Nat) (s : EngineState) :
    process_command (CMD_CONFIG :: rest) s =
      doConfig (CMD_CONFIG :: rest) (bumpRx (CMD_CONFIG :: rest) s) := rfl

/-- Dispatch of a `CMD_SET_PIXEL` buffer. -/
theorem process_setPixel (rest : List Nat) (s : EngineState) :
    process_command (CMD_SET_PIXEL :: rest) s =
      doSetPixel (CMD_SET_PIXEL :: rest) (bumpRx (CMD_SET_PIXEL :: rest) s) := rfl

/-- `CMD_SET_ALL` with a buffer shorter than `1 + total_leds*3`: the
command is dropped with `SIZE_MISMATCH`, one packet error is counted, and
nothing else changes. -/
theorem doSetAll_reject (data : List Nat) (s : EngineState)
    (h : data.length < 1 + s.total_leds * 3) :
    doSetAll data s =
      { s with set_all_commands_received := s.set_all_commands_received + 1,
               packet_errors := s.packet_errors + 1,
               responses := s.responses ++ [Resp.msg RESP_ERROR "SIZE_MISMATCH"] } := by
  unfold doSetAll
  dsimp only
  rw [if_pos h]

/-- `CMD_SET_ALL` with a buffer of at least `1 + total_leds*3` bytes:
every logical pixel is overwritten, the unused tails of the active strips
are blacked, and the frame is counted. -/
theorem doSetAll_accept (data : List Nat) (s : EngineState)
    (h : ¬data.length < 1 + s.total_leds * 3) :
    (doSetAll data s).leds =
      clearTails s.leds_per_strip s.active_strips
        (applySetAll (logical_to_physical s.active_strips s.leds_per_strip)
          (fun logical => tripleAt data (1 + logical * 3)) s.total_leds s.leds) ∧
    (doSetAll data s).frames_rendered = s.frames_rendered + 1 ∧
    (doSetAll data s).active_strips = s.active_strips ∧
    (doSetAll data s).leds_per_strip = s.leds_per_strip ∧
    (doSetAll data s).total_leds = s.total_leds ∧
    (doSetAll data s).packet_errors = s.packet_errors := by
  unfold doSetAll
  dsimp only
  rw [if_neg h]
  by_cases h3 : s.frames_rendered + 1 ≤ 3
  · rw [if_pos h3]
    refine ⟨?_, ?_, ?_, ?_, ?_, ?_⟩ <;> dsimp only
  · rw [if_neg h3]
    refine ⟨?_, ?_, ?_, ?_, ?_, ?_⟩ <;> dsimp only

/-- C3: for every legal configuration (1 ≤ active_strips ≤ MAX_STRIPS,
1 ≤ leds_per_strip ≤ MAX_LEDS_PER_STRIP, total_leds = active_strips ×
leds_per_strip) and every (uint16) logical index `i ≥ total_leds`,
`logical_to_physical` returns `(active_strips-1)*MAX_LEDS_PER_STRIP +
(leds_per_strip-1)`, the last physical slot of the last active strip. -/
theorem c3_clamp_to_last_slot (a len i : Nat)
    (ha1 : 1 ≤ a) (ha2 : a ≤ MAX_STRIPS)
    (hl1 : 1 ≤ len) (hl2 : len ≤ MAX_LEDS_PER_STRIP)
    (hi : a * len ≤ i) (hu : i < 65536) :
    logical_to_physical a len i = (a - 1) * MAX_LEDS_PER_STRIP + (len - 1) :=
  l2p_clamp a len hl1 i hi

theorem c3_clamp_to_last_slot_witness :
    2 * 3 ≤ 10 ∧ logical_to_physical 2 3 10 = (2 - 1) * MAX_LEDS_PER_STRIP + (3 - 1) :=
  ⟨by decide,
   c3_clamp_to_last_slot 2 3 10 (by decide) (by decide) (by decide) (by decide)
     (by decide) (by decide)⟩

/-- C5: for every legal configuration and in-range logical indices `i, j`,
`logical_to_physical i` lies in the active region (strip component below
`active_strips`, offset component below `leds_per_strip`), and distinct
in-range indices map to distinct physical slots. -/
theorem c5_in_range_and_injective (a len i j : Nat)
    (ha1 : 1 ≤ a) (ha2 : a ≤ MAX_STRIPS)
    (hl1 : 1 ≤ len) (hl2 : len ≤ MAX_LEDS_PER_STRIP)
    (hi : i < a * len) (hj : j < a * len) :
    logical_to_physical a len i / MAX_LEDS_PER_STRIP < a ∧
    logical_to_physical a len i % MAX_LEDS_PER_STRIP < len ∧
    (i ≠ j → logical_to_physical a len i ≠ logical_to_physical a len j) := by
  obtain ⟨ei, hdi, hmi⟩ := l2p_in_range a len hl1 i hi
  refine ⟨?_, ?_, fun hne => l2p_inj a len hl1 hl2 i j hi hj hne⟩
  · rw [ei]
    simp only [MAX_LEDS_PER_STRIP] at *
    omega
  · rw [ei]
    simp only [MAX_LEDS_PER_STRIP] at *
    omega

theorem c5_in_range_and_injective_witness :
    0 < 8 * 140 ∧ 1 < 8 * 140 ∧
    (logical_to_physical 8 140 0 / MAX_LEDS_PER_STRIP < 8 ∧
     logical_to_physical 8 140 0 % MAX_LEDS_PER_STRIP < 140 ∧
     (0 ≠ 1 → logical_to_physical 8 140 0 ≠ logical_to_physical 8 140 1)) :=
  ⟨by decide, by decide,
   c5_in_range_and_injective 8 140 0 1 (by decide) (by decide) (by decide) (by decide)
     (by decide) (by decide)⟩

/-- C10 (implicit): under the configuration invariant, every value of
`logical_to_physical` — clamped or not, for any logical index — is
strictly below `MAX_TOTAL_LEDS`, so every render-buffer write through the
mapper stays inside the fixed-capacity `leds` array. -/
theorem c10_mapper_in_capacity (a len i : Nat)
    (ha1 : 1 ≤ a) (ha2 : a ≤ MAX_STRIPS)
    (hl1 : 1 ≤ len) (hl2 : len ≤ MAX_LEDS_PER_STRIP) :
    logical_to_physical a len i < MAX_TOTAL_LEDS :=
  l2p_lt_max a len ha1 ha2 hl1 hl2 i

theorem c10_mapper_in_capacity_witness :
    1 ≤ 8 ∧ logical_to_physical 8 500 60000 < MAX_TOTAL_LEDS :=
  ⟨by decide,
   c10_mapper_in_capacity 8 500 60000 (by decide) (by decide) (by decide) (by decide)⟩

/-- C7: a `CMD_CONFIG` buffer that is too short (fewer than 3 payload
bytes after the opcode), or whose strip count is outside
`[1, MAX_STRIPS]`, or whose leds-per-strip is outside
`[1, MAX_LEDS_PER_STRIP]`, emits an error response and mutates nothing:
`active_strips`, `leds_per_strip`, `total_leds` and every pixel of the
render buffer are unchanged. -/
theorem c7_config_reject_no_mutation (s : EngineState) (rest : List Nat)
    (hreach : Reachable s)
    (hbad : (CMD_CONFIG :: rest).length < 4 ∨
            (byteAt (CMD_CONFIG :: rest) 1 = 0 ∨
             MAX_STRIPS < byteAt (CMD_CONFIG :: rest) 1) ∨
            (byteAt (CMD_CONFIG :: rest) 2 <<< 8 ||| byteAt (CMD_CONFIG :: rest) 3 = 0 ∨
             MAX_LEDS_PER_STRIP <
               byteAt (CMD_CONFIG :: rest) 2 <<< 8 ||| byteAt (CMD_CONFIG :: rest) 3)) :
    (process_command (CMD_CONFIG :: rest) s).active_strips = s.active_strips ∧
    (process_command (CMD_CONFIG :: rest) s).leds_per_strip = s.leds_per_strip ∧
    (process_command (CMD_CONFIG :: rest) s).total_leds = s.total_leds ∧
    (process_command (CMD_CONFIG :: rest) s).leds = s.leds ∧
    ∃ m, (process_command (CMD_CONFIG :: rest) s).responses =
           s.responses ++ [Resp.msg RESP_ERROR m] := by
  rw [process_config]
  by_cases h4 : (CMD_CONFIG :: rest).length < 4
  · rw [doConfig_too_short _ _ h4]
    exact ⟨rfl, rfl, rfl, rfl, "CONFIG_TOO_SHORT", rfl⟩
  · rcases hbad with hb | hs | hl
    · exact absurd hb h4
    · rw [doConfig_invalid_strips _ _ h4 hs]
      exact ⟨rfl, rfl, rfl, rfl, "INVALID_STRIPS", rfl⟩
    · by_cases hs : byteAt (CMD_CONFIG :: rest) 1 = 0 ∨
          MAX_STRIPS < byteAt (CMD_CONFIG :: rest) 1
      · rw [doConfig_invalid_strips _ _ h4 hs]
        exact ⟨rfl, rfl, rfl, rfl, "INVALID_STRIPS", rfl⟩
      · rw [doConfig_invalid_len _ _ h4 hs hl]
        exact ⟨rfl, rfl, rfl, rfl, "INVALID_LENGTH", rfl⟩

theorem c7_config_reject_no_mutation_witness :
    (CMD_CONFIG :: ([] : List Nat)).length < 4 ∧
    ((process_command (CMD_CONFIG :: []) initialState).active_strips =
        initialState.active_strips ∧
     (process_command (CMD_CONFIG :: []) initialState).leds_per_strip =
        initialState.leds_per_strip ∧
     (process_command (CMD_CONFIG :: []) initialState).total_leds =
        initialState.total_leds ∧
     (process_command (CMD_CONFIG :: []) initialState).leds = initialState.leds ∧
     ∃ m, (process_command (CMD_CONFIG :: []) initialState).responses =
            initialState.responses ++ [Resp.msg RESP_ERROR m]) :=
  ⟨by decide,
   c7_config_reject_no_mutation initialState [] Reachable.init (Or.inl (by decide))⟩

/-- C6: a valid `CMD_CONFIG` clears the entire render buffer exactly
when the requested `(strip_count, leds_per_strip)` differs from the
current configuration (answering `CONFIG_CHANGED`); when it does not
differ, no pixel changes and it answers `CONFIG_OK` — in particular the
second of two identical CONFIG applications reports `CONFIG_OK` and
leaves every pixel unmodified. -/
theorem c6_config_idempotent (s : EngineState) (rest : List Nat)
    (hv4 : ¬(CMD_CONFIG :: rest).length < 4)
    (hvs : ¬(byteAt (CMD_CONFIG :: rest) 1 = 0 ∨
             MAX_STRIPS < byteAt (CMD_CONFIG :: rest) 1))
    (hvl : ¬(byteAt (CMD_CONFIG :: rest) 2 <<< 8 ||| byteAt (CMD_CONFIG :: rest) 3 = 0 ∨
             MAX_LEDS_PER_STRIP <
               byteAt (CMD_CONFIG :: rest) 2 <<< 8 ||| byteAt (CMD_CONFIG :: rest) 3)) :
    ((s.active_strips ≠ byteAt (CMD_CONFIG :: rest) 1 ∨
      s.leds_per_strip ≠ byteAt (CMD_CONFIG :: rest) 2 <<< 8 ||| byteAt (CMD_CONFIG :: rest) 3) →
      (∀ p, p < MAX_TOTAL_LEDS → (process_command (CMD_CONFIG :: rest) s).leds p = black) ∧
      (process_command (CMD_CONFIG :: rest) s).responses =
        s.responses ++ [Resp.msg RESP_OK "CONFIG_CHANGED"]) ∧
    (¬(s.active_strips ≠ byteAt (CMD_CONFIG :: rest) 1 ∨
       s.leds_per_strip ≠ byteAt (CMD_CONFIG :: rest) 2 <<< 8 ||| byteAt (CMD_CONFIG :: rest) 3) →
      (process_command (CMD_CONFIG :: rest) s).leds = s.leds ∧
      (process_command (CMD_CONFIG :: rest) s).responses =
        s.responses ++ [Resp.msg RESP_OK "CONFIG_OK"]) ∧
    ((process_command (CMD_CONFIG :: rest) (process_command (CMD_CONFIG :: rest) s)).leds =
       (process_command (CMD_CONFIG :: rest) s).leds ∧
     (process_command (CMD_CONFIG :: rest) (process_command (CMD_CONFIG :: rest) s)).responses =
       (process_command (CMD_CONFIG :: rest) s).responses ++ [Resp.msg RESP_OK "CONFIG_OK"]) := by
  have hfields : (process_command (CMD_CONFIG :: rest) s).active_strips =
        byteAt (CMD_CONFIG :: rest) 1 ∧
      (process_command (CMD_CONFIG :: rest) s).leds_per_strip =
        byteAt (CMD_CONFIG :: rest) 2 <<< 8 ||| byteAt (CMD_CONFIG :: rest) 3 := by
    rw [process_config]
    by_cases hch : (bumpRx (CMD_CONFIG :: rest) s).active_strips ≠ byteAt (CMD_CONFIG :: rest) 1 ∨
        (bumpRx (CMD_CONFIG :: rest) s).leds_per_strip ≠
          byteAt (CMD_CONFIG :: rest) 2 <<< 8 ||| byteAt (CMD_CONFIG :: rest) 3
    · obtain ⟨e1, e2, e3, e4, e5⟩ := doConfig_changed _ _ hv4 hvs hvl hch
      exact ⟨e2, e3⟩
    · obtain ⟨e1, e2, e3, e4, e5⟩ := doConfig_unchanged _ _ hv4 hvs hvl hch
      exact ⟨e2, e3⟩
  refine ⟨?_, ?_, ?_⟩
  · intro hch
    obtain ⟨e1, e2, e3, e4, e5⟩ := doConfig_changed (CMD_CONFIG :: rest)
      (bumpRx (CMD_CONFIG :: rest) s) hv4 hvs hvl hch
    constructor
    · intro p hp
      rw [process_config, e1, blackRange_apply, if_pos ⟨Nat.zero_le p, by rw [Nat.zero_add]; exact hp⟩]
    · rw [process_config, e5]
      rfl
  · intro hch
    obtain ⟨e1, e2, e3, e4, e5⟩ := doConfig_unchanged (CMD_CONFIG :: rest)
      (bumpRx (CMD_CONFIG :: rest) s) hv4 hvs hvl hch
    constructor
    · rw [process_config, e1]
      rfl
    · rw [process_config, e5]
      rfl
  · have hch2 : ¬((bumpRx (CMD_CONFIG :: rest) (process_command (CMD_CONFIG :: rest) s)).active_strips ≠
          byteAt (CMD_CONFIG :: rest) 1 ∨
        (bumpRx (CMD_CONFIG :: rest) (process_command (CMD_CONFIG :: rest) s)).leds_per_strip ≠
          byteAt (CMD_CONFIG :: rest) 2 <<< 8 ||| byteAt (CMD_CONFIG :: rest) 3) := by
      push_neg
      exact ⟨hfields.1, hfields.2⟩
    obtain ⟨e1, e2, e3, e4, e5⟩ := doConfig_unchanged (CMD_CONFIG :: rest)
      (bumpRx (CMD_CONFIG :: rest) (process_command (CMD_CONFIG :: rest) s)) hv4 hvs hvl hch2
    constructor
    · conv_lhs => rw [process_config]
      rw [e1]
      rfl
    · conv_lhs => rw [process_config]
      rw [e5]
      rfl

theorem c6_config_idempotent_witness :
    ¬(CMD_CONFIG :: [8, 0, 140]).length < 4 ∧
    (((initialState.active_strips ≠ byteAt (CMD_CONFIG :: [8, 0, 140]) 1 ∨
       initialState.leds_per_strip ≠
         byteAt (CMD_CONFIG :: [8, 0, 140]) 2 <<< 8 ||| byteAt (CMD_CONFIG :: [8, 0, 140]) 3) →
       (∀ p, p < MAX_TOTAL_LEDS →
          (process_command (CMD_CONFIG :: [8, 0, 140]) initialState).leds p = black) ∧
       (process_command (CMD_CONFIG :: [8, 0, 140]) initialState).responses =
         initialState.responses ++ [Resp.msg RESP_OK "CONFIG_CHANGED"]) ∧
     (¬(initialState.active_strips ≠ byteAt (CMD_CONFIG :: [8, 0, 140]) 1 ∨
        initialState.leds_per_strip ≠
          byteAt (CMD_CONFIG :: [8, 0, 140]) 2 <<< 8 ||| byteAt (CMD_CONFIG :: [8, 0, 140]) 3) →
       (process_command (CMD_CONFIG :: [8, 0, 140]) initialState).leds = initialState.leds ∧
       (process_command (CMD_CONFIG :: [8, 0, 140]) initialState).responses =
         initialState.responses ++ [Resp.msg RESP_OK "CONFIG_OK"]) ∧
     ((process_command (CMD_CONFIG :: [8, 0, 140])
         (process_command (CMD_CONFIG :: [8, 0, 140]) initialState)).leds =
        (process_command (CMD_CONFIG :: [8, 0, 140]) initialState).leds ∧
      (process_command (CMD_CONFIG :: [8, 0, 140])
         (process_command (CMD_CONFIG :: [8, 0, 140]) initialState)).responses =
        (process_command (CMD_CONFIG :: [8, 0, 140]) initialState).responses ++
          [Resp.msg RESP_OK "CONFIG_OK"])) :=
  ⟨by decide,
   c6_config_idempotent initialState [8, 0, 140] (by decide) (by decide) (by decide)⟩

/-- C1 counterexample: the code rejects a SET_ALL buffer only when it is
SHORTER than `1 + total_leds*3`, not whenever the length differs. After
`CONFIG(1,1)` (so `total_leds = 1` and the exact size is 4), a 5-byte
SET_ALL is processed rather than rejected: `frames_rendered` increments,
no packet error is counted, and `FRAME_OK` — not `SIZE_MISMATCH` — is
emitted. -/
theorem c1_counterexample :
    (process_command [CMD_CONFIG, 1, 0, 1] initialState).total_leds = 1 ∧
    ([CMD_SET_ALL, 9, 9, 9, 0] : List Nat).length ≠
      1 + (process_command [CMD_CONFIG, 1, 0, 1] initialState).total_leds * 3 ∧
    (process_command [CMD_SET_ALL, 9, 9, 9, 0]
        (process_command [CMD_CONFIG, 1, 0, 1] initialState)).frames_rendered =
      (process_command [CMD_CONFIG, 1, 0, 1] initialState).frames_rendered + 1 ∧
    (process_command [CMD_SET_ALL, 9, 9, 9, 0]
        (process_command [CMD_CONFIG, 1, 0, 1] initialState)).packet_errors =
      (process_command [CMD_CONFIG, 1, 0, 1] initialState).packet_errors ∧
    (process_command [CMD_SET_ALL, 9, 9, 9, 0]
        (process_command [CMD_CONFIG, 1, 0, 1] initialState)).responses =
      (process_command [CMD_CONFIG, 1, 0, 1] initialState).responses ++
        [Resp.msg RESP_OK "FRAME_OK"] := by
  decide

/-- C1 (amended): for every reachable engine state, a SET_ALL buffer whose
length is LESS THAN `1 + total_leds*3` is rejected: a `SIZE_MISMATCH`
error response is emitted, the packet-error counter increments, no pixel
of the render buffer changes, and `frames_rendered` does not increment.
(A buffer longer than the exact size is accepted and rendered.) -/
theorem c1_setall_short_rejected (s : EngineState) (rest : List Nat)
    (hreach : Reachable s)
    (hshort : (CMD_SET_ALL :: rest).length < 1 + s.total_leds * 3) :
    (process_command (CMD_SET_ALL :: rest) s).leds = s.leds ∧
    (process_command (CMD_SET_ALL :: rest) s).frames_rendered = s.frames_rendered ∧
    (process_command (CMD_SET_ALL :: rest) s).packet_errors = s.packet_errors + 1 ∧
    (process_command (CMD_SET_ALL :: rest) s).responses =
      s.responses ++ [Resp.msg RESP_ERROR "SIZE_MISMATCH"] := by
  rw [process_setAll, doSetAll_reject (CMD_SET_ALL :: rest) (bumpRx (CMD_SET_ALL :: rest) s) hshort]
  exact ⟨rfl, rfl, rfl, rfl⟩

theorem c1_setall_short_rejected_witness :
    (CMD_SET_ALL :: ([] : List Nat)).length < 1 + initialState.total_leds * 3 ∧
    ((process_command (CMD_SET_ALL :: []) initialState).leds = initialState.leds ∧
     (process_command (CMD_SET_ALL :: []) initialState).frames_rendered =
       initialState.frames_rendered ∧
     (process_command (CMD_SET_ALL :: []) initialState).packet_errors =
       initialState.packet_errors + 1 ∧
     (process_command (CMD_SET_ALL :: []) initialState).responses =
       initialState.responses ++ [Resp.msg RESP_ERROR "SIZE_MISMATCH"]) :=
  ⟨by decide, c1_setall_short_rejected initialState [] Reachable.init (by decide)⟩

/-- C4 counterexample: at the default configuration (`total_leds = 1120`),
`SET_PIXEL` with logical index 1280 (≥ 1120) performs NO write at all —
the whole render buffer, in particular the last physical slot of the last
active strip, is unchanged and never receives the commanded RGB value
(7,7,7). The claim that the value is clamped into the last slot is false. -/
theorem c4_counterexample :
    initialState.total_leds ≤
      byteAt [CMD_SET_PIXEL, 5, 0, 7, 7, 7] 1 <<< 8 |||
        byteAt [CMD_SET_PIXEL, 5, 0, 7, 7, 7] 2 ∧
    (process_command [CMD_SET_PIXEL, 5, 0, 7, 7, 7] initialState).leds
        ((initialState.active_strips - 1) * MAX_LEDS_PER_STRIP +
          (initialState.leds_per_strip - 1)) ≠ RGB.mk 7 7 7 ∧
    (process_command [CMD_SET_PIXEL, 5, 0, 7, 7, 7] initialState).leds =
      initialState.leds :=
  ⟨by decide, by decide, rfl⟩

/-- C4 (amended): for every reachable engine state, a SET_PIXEL command
whose logical index is at or beyond `total_leds` is silently IGNORED: no
pixel of the render buffer changes (the write is dropped, not clamped). -/
theorem c4_setpixel_out_of_range_ignored (s : EngineState) (rest : List Nat)
    (hreach : Reachable s)
    (hlen : ¬(CMD_SET_PIXEL :: rest).length < 6)
    (hpix : s.total_leds ≤
      byteAt (CMD_SET_PIXEL :: rest) 1 <<< 8 ||| byteAt (CMD_SET_PIXEL :: rest) 2) :
    (process_command (CMD_SET_PIXEL :: rest) s).leds = s.leds := by
  rw [process_setPixel]
  unfold doSetPixel
  dsimp only
  rw [if_neg hlen]
  rw [if_neg (Nat.not_lt.mpr hpix :
    ¬(byteAt (CMD_SET_PIXEL :: rest) 1 <<< 8 ||| byteAt (CMD_SET_PIXEL :: rest) 2 <
      (bumpRx (CMD_SET_PIXEL :: rest) s).total_leds))]
  rfl

theorem c4_setpixel_out_of_range_ignored_witness :
    initialState.total_leds ≤
      byteAt (CMD_SET_PIXEL :: [5, 0, 7, 7, 7]) 1 <<< 8 |||
        byteAt (CMD_SET_PIXEL :: [5, 0, 7, 7, 7]) 2 ∧
    (process_command (CMD_SET_PIXEL :: [5, 0, 7, 7, 7]) initialState).leds =
      initialState.leds :=
  ⟨by decide,
   c4_setpixel_out_of_range_ignored initialState [5, 0, 7, 7, 7] Reachable.init
     (by decide) (by decide)⟩

/-- C9: in every state reachable from the initial all-black render buffer
by any sequence of processed commands, every physical slot on a strip
index at or beyond `active_strips` is black — stale pixel data from a
previous larger layout never survives outside the current active region. -/
theorem c9_inactive_strips_black (s : EngineState) (hreach : Reachable s)
    (strip offset : Nat) (hstrip : strip < MAX_STRIPS)
    (hoffset : offset < MAX_LEDS_PER_STRIP) (hout : s.active_strips ≤ strip) :
    s.leds (strip * MAX_LEDS_PER_STRIP + offset) = black := by
  have hb := (reachable_inv s hreach).2
  apply hb
  · simp only [MAX_LEDS_PER_STRIP, MAX_STRIPS, MAX_TOTAL_LEDS] at *
    omega
  · simp only [MAX_LEDS_PER_STRIP] at *
    omega

theorem c9_inactive_strips_black_witness :
    (process_command [CMD_CONFIG, 1, 0, 1] initialState).active_strips ≤ 3 ∧
    (process_command [CMD_CONFIG, 1, 0, 1] initialState).leds
      (3 * MAX_LEDS_PER_STRIP + 0) = black :=
  ⟨by decide,
   c9_inactive_strips_black (process_command [CMD_CONFIG, 1, 0, 1] initialState)
     (Reachable.step [CMD_CONFIG, 1, 0, 1] Reachable.init (by decide) (by decide))
     3 0 (by decide) (by decide) (by decide)⟩

/-- Full characterisation of a successful SET_ALL on a state satisfying
the configuration invariant and the outside-black invariant. -/
theorem setAll_accept_spec (t : EngineState) (data : List Nat)
    (hc : ConfigInv t) (hbo : BO t.active_strips t.leds)
    (hnot : ¬data.length < 1 + t.total_leds * 3) :
    (∀ i, i < t.total_leds →
       (doSetAll data t).leds
           (logical_to_physical t.active_strips t.leds_per_strip i) =
         tripleAt data (1 + i * 3)) ∧
    (∀ strip offset, strip < MAX_STRIPS → offset < MAX_LEDS_PER_STRIP →
       (t.active_strips ≤ strip ∨ t.leds_per_strip ≤ offset) →
       (doSetAll data t).leds (strip * MAX_LEDS_PER_STRIP + offset) = black) ∧
    (doSetAll data t).frames_rendered = t.frames_rendered + 1 := by
  obtain ⟨eL, eF, _, _, _, _⟩ := doSetAll_accept data t hnot
  obtain ⟨hc1, hc2, hc3, hc4, hc5⟩ := hc
  refine ⟨?_, ?_, eF⟩
  · intro i hi
    have hi2 : i < t.active_strips * t.leds_per_strip := by rw [← hc5]; exact hi
    obtain ⟨ei, hdi, hmi⟩ := l2p_in_range t.active_strips t.leds_per_strip hc3 i hi2
    rw [eL, clearTails_apply _ hc4]
    rw [if_neg (by rw [ei]; simp only [MAX_LEDS_PER_STRIP] at *; omega)]
    exact applySetAll_apply _ _ t.total_leds t.leds i hi fun j hj hji =>
      l2p_inj t.active_strips t.leds_per_strip hc3 hc4 j i
        (by rw [← hc5]; exact hj) hi2 hji
  · intro strip offset hstrip hoffset hout
    rw [eL, clearTails_apply _ hc4]
    by_cases hsa : strip < t.active_strips
    · have hoff : t.leds_per_strip ≤ offset := by
        rcases hout with h1 | h2
        · omega
        · exact h2
      rw [if_pos ⟨by simp only [MAX_LEDS_PER_STRIP] at *; omega,
                  by simp only [MAX_LEDS_PER_STRIP] at *; omega⟩]
    · have hsa2 : t.active_strips ≤ strip := by omega
      rw [if_neg (by simp only [MAX_LEDS_PER_STRIP] at *; omega)]
      rw [applySetAll_apply_ne _ _ _ _ _ ?hne]
      case hne =>
        intro j hj heq
        have hdlt := l2p_div_lt t.active_strips t.leds_per_strip hc1 hc3 hc4 j
        rw [heq] at hdlt
        simp only [MAX_LEDS_PER_STRIP] at *
        omega
      apply hbo
      · simp only [MAX_LEDS_PER_STRIP, MAX_STRIPS, MAX_TOTAL_LEDS] at *
        omega
      · simp only [MAX_LEDS_PER_STRIP] at *
        omega

/-- C2: for every reachable engine state, a SET_ALL buffer of length
exactly `1 + total_leds*3` updates every active logical pixel `i` (at its
mapped physical slot) with the RGB triple at buffer bytes
`1+3i .. 3+3i`, blacks every physical slot outside the active region, and
increments `frames_rendered` by exactly one. -/
theorem c2_setall_exact_renders (s : EngineState) (payload : List Nat)
    (hreach : Reachable s)
    (hlen : payload.length = s.total_leds * 3) :
    (∀ i, i < s.total_leds →
       (process_command (CMD_SET_ALL :: payload) s).leds
           (logical_to_physical s.active_strips s.leds_per_strip i) =
         RGB.mk (byteAt (CMD_SET_ALL :: payload) (1 + i * 3))
                (byteAt (CMD_SET_ALL :: payload) (1 + i * 3 + 1))
                (byteAt (CMD_SET_ALL :: payload) (1 + i * 3 + 2))) ∧
    (∀ strip offset, strip < MAX_STRIPS → offset < MAX_LEDS_PER_STRIP →
       (s.active_strips ≤ strip ∨ s.leds_per_strip ≤ offset) →
       (process_command (CMD_SET_ALL :: payload) s).leds
           (strip * MAX_LEDS_PER_STRIP + offset) = black) ∧
    (process_command (CMD_SET_ALL :: payload) s).frames_rendered =
      s.frames_rendered + 1 := by
  obtain ⟨hc, hbo⟩ := reachable_inv s hreach
  have hnot : ¬(CMD_SET_ALL :: payload).length <
      1 + (bumpRx (CMD_SET_ALL :: payload) s).total_leds * 3 := by
    show ¬(CMD_SET_ALL :: payload).length < 1 + s.total_leds * 3
    rw [List.length_cons, hlen]
    omega
  obtain ⟨hA, hB, hC⟩ := setAll_accept_spec (bumpRx (CMD_SET_ALL :: payload) s)
    (CMD_SET_ALL :: payload) hc hbo hnot
  rw [process_setAll]
  exact ⟨fun i hi => hA i hi, fun strip offset h1 h2 h3 => hB strip offset h1 h2 h3, hC⟩

theorem c2_setall_exact_renders_witness :
    (List.replicate 3360 (0 : Nat)).length = initialState.total_leds * 3 ∧
    ((∀ i, i < initialState.total_leds →
        (process_command (CMD_SET_ALL :: List.replicate 3360 0) initialState).leds
            (logical_to_physical initialState.active_strips
              initialState.leds_per_strip i) =
          RGB.mk (byteAt (CMD_SET_ALL :: List.replicate 3360 0) (1 + i * 3))
                 (byteAt (CMD_SET_ALL :: List.replicate 3360 0) (1 + i * 3 + 1))
                 (byteAt (CMD_SET_ALL :: List.replicate 3360 0) (1 + i * 3 + 2))) ∧
     (∀ strip offset, strip < MAX_STRIPS → offset < MAX_LEDS_PER_STRIP →
        (initialState.active_strips ≤ strip ∨ initialState.leds_per_strip ≤ offset) →
        (process_command (CMD_SET_ALL :: List.replicate 3360 0) initialState).leds
            (strip * MAX_LEDS_PER_STRIP + offset) = black) ∧
     (process_command (CMD_SET_ALL :: List.replicate 3360 0) initialState).frames_rendered =
       initialState.frames_rendered + 1) :=
  ⟨by rw [List.length_replicate]; decide, c2_setall_exact_renders initialState
      (List.replicate 3360 0) Reachable.init (by rw [List.length_replicate]; decide)⟩

/-- C8: in framed-stream mode, a single spurious non-START byte followed
by a well-formed packet `[0xAA][len lo][len hi][payload][0x55]` is
handled by discarding the spurious byte and counting exactly one packet
error for it, after which the packet is parsed and its payload dispatched
to `process_command`. -/
theorem c8_resync_after_spurious_byte (s : EngineState) (b lo hi : Nat)
    (payload : List Nat) (hb : b ≠ PACKET_START)
    (hplen : lo ||| hi <<< 8 = payload.length)
    (hmax : payload.length ≤ MAX_PACKET_SIZE) :
    loopStep (b :: PACKET_START :: lo :: hi :: (payload ++ [PACKET_END])) s =
      (PACKET_START :: lo :: hi :: (payload ++ [PACKET_END]), bumpErr s) ∧
    runStream (b :: PACKET_START :: lo :: hi :: (payload ++ [PACKET_END])) s =
      process_command payload (bumpErr s) := by
  have hlen1 : ¬(b :: PACKET_START :: lo :: hi :: (payload ++ [PACKET_END])).length < 4 := by
    simp only [List.length_cons, List.length_append, List.length_singleton]
    omega
  have hlen2 : ¬(PACKET_START :: lo :: hi :: (payload ++ [PACKET_END])).length < 4 := by
    simp only [List.length_cons, List.length_append, List.length_singleton]
    omega
  have step1 : loopStep (b :: PACKET_START :: lo :: hi :: (payload ++ [PACKET_END])) s =
      (PACKET_START :: lo :: hi :: (payload ++ [PACKET_END]), bumpErr s) := by
    unfold loopStep
    rw [if_neg hlen1]
    dsimp only
    rw [if_neg hb]
  have step2 : loopStep (PACKET_START :: lo :: hi :: (payload ++ [PACKET_END])) (bumpErr s) =
      ([], process_command payload (bumpErr s)) := by
    unfold loopStep
    rw [if_neg hlen2]
    dsimp only
    rw [if_pos rfl, hplen]
    rw [if_neg (Nat.not_lt.mpr hmax)]
    rw [if_neg (by simp only [List.length_append, List.length_singleton]; omega)]
    rw [if_neg (by
      show ¬(byteAt (payload ++ [PACKET_END]) payload.length ≠ PACKET_END)
      unfold byteAt
      rw [List.getD_append_right payload [PACKET_END] 0 payload.length Nat.le.refl,
        Nat.sub_self]
      exact fun hne => hne rfl)]
    rw [List.drop_eq_nil_of_le
        (by simp only [List.length_append, List.length_singleton]; omega),
      List.take_left' rfl]
  refine ⟨step1, ?_⟩
  rw [runStream, dif_neg hlen1, step1]
  dsimp only
  rw [runStream, dif_neg hlen2, step2]
  dsimp only
  rw [runStream, dif_pos (by simp)]

theorem c8_resync_after_spurious_byte_witness :
    (0 ≠ PACKET_START) ∧
    (loopStep [0, PACKET_START, 1, 0, CMD_PING, PACKET_END] initialState =
       (PACKET_START :: 1 :: 0 :: ([CMD_PING] ++ [PACKET_END]), bumpErr initialState) ∧
     runStream [0, PACKET_START, 1, 0, CMD_PING, PACKET_END] initialState =
       process_command [CMD_PING] (bumpErr initialState)) :=
  ⟨by decide,
   c8_resync_after_spurious_byte initialState 0 1 0 [CMD_PING] (by decide)
     (by decide) (by decide)⟩

end LedGrid
